import Mathlib

/-!
Verification of the `get_storage_at` RPC method
(crates/rpc/src/v02/method/get_storage_at.rs) against its specification.

The method reads a contract storage slot at a given block identifier.
Field elements (contract addresses, storage keys, storage values, block
hashes) are modelled as natural numbers; the committed-storage database
transaction and the pending overlay are modelled as snapshots: records of
the read functions the Rust code calls on them (`block_exists`,
`storage_value`, `contract_exists`, and the pending state update's
`storage_value`).
-/

namespace Pathfinder

abbrev ContractAddress := Nat
abbrev StorageAddress := Nat
abbrev StorageValue := Nat
abbrev BlockHash := Nat
abbrev BlockNumber := Nat

/-- StorageValue::ZERO from pathfinder_common. -/
def StorageValue.ZERO : StorageValue := 0

/-- pathfinder_common::BlockId, the block identifier accepted by the RPC input. -/
inductive BlockId
  | Pending
  | Latest
  | Number (n : BlockNumber)
  | Hash (h : BlockHash)
deriving DecidableEq, Repr

/-- BlockId::is_pending. -/
def BlockId.is_pending : BlockId → Bool
  | BlockId.Pending => true
  | _ => false

/-- pathfinder_storage::BlockId, the block identifier understood by the
database layer; it has no Pending variant. -/
inductive StorageBlockId
  | Latest
  | Number (n : BlockNumber)
  | Hash (h : BlockHash)
deriving DecidableEq, Repr

/-- The TryInto conversion from the common BlockId to the storage BlockId;
it fails (returns none) exactly on the Pending variant. -/
def BlockId.tryIntoStorage : BlockId → Option StorageBlockId
  | BlockId.Pending => none
  | BlockId.Latest => some StorageBlockId.Latest
  | BlockId.Number n => some (StorageBlockId.Number n)
  | BlockId.Hash h => some (StorageBlockId.Hash h)

/-- The `let block_id = match input.block_id` step of get_storage_at
(lines 49-52): Pending is mapped to Latest, every other variant goes
through the TryInto conversion whose failure the Rust code unwraps with
`expect` — modelled here as the none outcome. -/
def convertBlockId : BlockId → Option StorageBlockId
  | BlockId.Pending => some StorageBlockId.Latest
  | other => BlockId.tryIntoStorage other

/-- The total resolution of a common BlockId to a storage BlockId that the
code intends: Pending behaves as Latest, the rest map structurally. -/
def resolve : BlockId → StorageBlockId
  | BlockId.Pending => StorageBlockId.Latest
  | BlockId.Latest => StorageBlockId.Latest
  | BlockId.Number n => StorageBlockId.Number n
  | BlockId.Hash h => StorageBlockId.Hash h

/-- Snapshot of the read operations get_storage_at performs on the
database transaction `tx`. -/
structure Transaction where
  block_exists : StorageBlockId → Bool
  storage_value : StorageBlockId → ContractAddress → StorageAddress → Option StorageValue
  contract_exists : ContractAddress → StorageBlockId → Bool

/-- The pending state update: the overlay diff mapping
(contract, key) to an optional storage value. -/
structure PendingStateUpdate where
  storage_value : ContractAddress → StorageAddress → Option StorageValue

/-- The pending data handed out by the context: its state_update carries
the overlay diff. -/
structure PendingData where
  state_update : PendingStateUpdate

/-- GetStorageAtInput: the RPC request parameters. -/
structure GetStorageAtInput where
  contract_address : ContractAddress
  key : StorageAddress
  block_id : BlockId
deriving DecidableEq, Repr

/-- GetStorageAtError: the typed error subset of the method, plus the
internal (anyhow) error channel. -/
inductive GetStorageAtError
  | ContractNotFound
  | BlockNotFound
  | Internal
deriving DecidableEq, Repr

/-- get_storage_at (lines 22-76), translated over the snapshots. The
outer Option models the `expect` on the BlockId conversion: a none result
stands for that panic; a some result is the typed Result the Rust code
returns. The pending overlay is consulted only when the input block id is
Pending (lines 37-47); the committed path first converts the block id
(lines 49-52), checks block existence (lines 54-57), then reads the
storage value, defaulting a missing key to zero when the contract exists
and reporting ContractNotFound otherwise (lines 59-72). -/
def get_storage_at (pending : PendingData) (tx : Transaction)
    (input : GetStorageAtInput) :
    Option (Except GetStorageAtError StorageValue) :=
  let fromPending : Option StorageValue :=
    if BlockId.is_pending input.block_id then
      pending.state_update.storage_value input.contract_address input.key
    else
      none
  match fromPending with
  | some value => some (Except.ok value)
  | none =>
    match convertBlockId input.block_id with
    | none => none
    | some block_id =>
      if !tx.block_exists block_id then
        some (Except.error GetStorageAtError.BlockNotFound)
      else
        match tx.storage_value block_id input.contract_address input.key with
        | some value => some (Except.ok value)
        | none =>
          if tx.contract_exists input.contract_address block_id then
            some (Except.ok StorageValue.ZERO)
          else
            some (Except.error GetStorageAtError.ContractNotFound)

/-- The committed-storage portion of get_storage_at (lines 54-72), as a
function of an already resolved storage block id. -/
def committedLookup (tx : Transaction) (block_id : StorageBlockId)
    (ca : ContractAddress) (k : StorageAddress) :
    Except GetStorageAtError StorageValue :=
  if !tx.block_exists block_id then
    Except.error GetStorageAtError.BlockNotFound
  else
    match tx.storage_value block_id ca k with
    | some value => Except.ok value
    | none =>
      if tx.contract_exists ca block_id then
        Except.ok StorageValue.ZERO
      else
        Except.error GetStorageAtError.ContractNotFound

/-! State-threaded embedding. The spawned closure receives the pending
overlay and the database transaction and performs a sequence of read
calls on them; to express that the query is read-only we thread the world
(both snapshots) through every call, exactly in the order the source
performs them, and observe that the final world equals the initial one. -/

/-- The world visible to the spawned closure: the pending overlay and the
open database transaction. -/
structure World where
  pending : PendingData
  tx : Transaction

/-- Read of the pending overlay diff (lines 38-43); the Rust call takes
the receiver by shared reference, hence returns the world unchanged. -/
def readPendingValue (w : World) (ca : ContractAddress) (k : StorageAddress) :
    Option StorageValue × World :=
  (w.pending.state_update.storage_value ca k, w)

/-- Read tx.block_exists (line 55). -/
def readBlockExists (w : World) (bid : StorageBlockId) : Bool × World :=
  (w.tx.block_exists bid, w)

/-- Read tx.storage_value (lines 59-61). -/
def readStorageValue (w : World) (bid : StorageBlockId)
    (ca : ContractAddress) (k : StorageAddress) :
    Option StorageValue × World :=
  (w.tx.storage_value bid ca k, w)

/-- Read tx.contract_exists (line 66). -/
def readContractExists (w : World) (ca : ContractAddress)
    (bid : StorageBlockId) : Bool × World :=
  (w.tx.contract_exists ca bid, w)

/-- The committed-storage tail of the query (lines 54-72), threading the
world through each database call. -/
def committedLookupRun (w : World) (bid : StorageBlockId)
    (ca : ContractAddress) (k : StorageAddress) :
    Option (Except GetStorageAtError StorageValue) × World :=
  match readBlockExists w bid with
  | (false, w1) => (some (Except.error GetStorageAtError.BlockNotFound), w1)
  | (true, w1) =>
    match readStorageValue w1 bid ca k with
    | (some value, w2) => (some (Except.ok value), w2)
    | (none, w2) =>
      match readContractExists w2 ca bid with
      | (true, w3) => (some (Except.ok StorageValue.ZERO), w3)
      | (false, w3) => (some (Except.error GetStorageAtError.ContractNotFound), w3)

/-- get_storage_at with the world threaded through every read, following
the source order: pending overlay first when the block id is Pending,
then block-id conversion, then the committed lookup. -/
def get_storage_at_run (w : World) (input : GetStorageAtInput) :
    Option (Except GetStorageAtError StorageValue) × World :=
  if BlockId.is_pending input.block_id then
    match readPendingValue w input.contract_address input.key with
    | (some value, w1) => (some (Except.ok value), w1)
    | (none, w1) =>
      match convertBlockId input.block_id with
      | none => (none, w1)
      | some bid => committedLookupRun w1 bid input.contract_address input.key
  else
    match convertBlockId input.block_id with
    | none => (none, w)
    | some bid => committedLookupRun w bid input.contract_address input.key

/-! Concrete snapshots used to witness the theorems below. -/

/-- Overlay whose diff sets contract 1, key 2 to the value 7. -/
def pendingSeven : PendingData :=
  ⟨⟨fun ca k => if ca = 1 then (if k = 2 then some 7 else none) else none⟩⟩

/-- Overlay with an empty diff. -/
def pendingEmpty : PendingData :=
  ⟨⟨fun _ _ => none⟩⟩

/-- Committed storage where every block resolves, every contract exists
and every stored slot reads 0. -/
def txZero : Transaction :=
  { block_exists := fun _ => true
    storage_value := fun _ _ _ => some 0
    contract_exists := fun _ _ => true }

/-- Committed storage holding no blocks at all. -/
def txNoBlocks : Transaction :=
  { block_exists := fun _ => false
    storage_value := fun _ _ _ => none
    contract_exists := fun _ _ => false }

/-- Committed storage where every block id resolves, no slot has a stored
value, and contract 1 exists at Latest only — in particular not at block
number 0. -/
def txLatestOnly : Transaction :=
  { block_exists := fun _ => true
    storage_value := fun _ _ _ => none
    contract_exists := fun ca bid =>
      match bid with
      | StorageBlockId.Latest => ca == 1
      | _ => false }

/-! Supporting lemmas. -/

theorem convertBlockId_eq_resolve (b : BlockId) :
    convertBlockId b = some (resolve b) := by
  cases b <;> rfl

theorem committedLookup_push (tx : Transaction) (bid : StorageBlockId)
    (ca : ContractAddress) (k : StorageAddress) :
    (if !tx.block_exists bid then
        some (Except.error GetStorageAtError.BlockNotFound)
      else
        match tx.storage_value bid ca k with
        | some value => some (Except.ok value)
        | none =>
          if tx.contract_exists ca bid then
            some (Except.ok StorageValue.ZERO)
          else
            some (Except.error GetStorageAtError.ContractNotFound)) =
      some (committedLookup tx bid ca k) := by
  rcases Bool.eq_false_or_eq_true (tx.block_exists bid) with hbe | hbe <;>
    rcases Bool.eq_false_or_eq_true (tx.contract_exists ca bid) with hce | hce <;>
      cases hsv : tx.storage_value bid ca k <;>
        simp [committedLookup, hbe, hce, hsv]

/-- Whenever the pending overlay is not consulted or yields no value, the
method computes exactly the committed lookup at the resolved block id. -/
theorem get_storage_at_committed (pending : PendingData) (tx : Transaction)
    (input : GetStorageAtInput)
    (hmiss : input.block_id = BlockId.Pending →
      pending.state_update.storage_value input.contract_address input.key = none) :
    get_storage_at pending tx input =
      some (committedLookup tx (resolve input.block_id)
        input.contract_address input.key) := by
  obtain ⟨ca, k, b⟩ := input
  cases b with
  | Pending =>
    have h : pending.state_update.storage_value ca k = none := hmiss rfl
    simp only [get_storage_at, BlockId.is_pending, reduceIte, h,
      convertBlockId, resolve]
    exact committedLookup_push tx StorageBlockId.Latest ca k
  | Latest => exact committedLookup_push tx StorageBlockId.Latest ca k
  | Number n => exact committedLookup_push tx (StorageBlockId.Number n) ca k
  | Hash h => exact committedLookup_push tx (StorageBlockId.Hash h) ca k

/-- When the input block id is Pending and the overlay holds a value for
the pair, that value is returned directly. -/
theorem get_storage_at_pending_hit (pending : PendingData) (tx : Transaction)
    (ca : ContractAddress) (k : StorageAddress) (v : StorageValue)
    (h : pending.state_update.storage_value ca k = some v) :
    get_storage_at pending tx ⟨ca, k, BlockId.Pending⟩ =
      some (Except.ok v) := by
  simp [get_storage_at, BlockId.is_pending, h]

/-- The threaded committed lookup returns the pure committed lookup and
leaves the world untouched. -/
theorem committedLookupRun_spec (w : World) (bid : StorageBlockId)
    (ca : ContractAddress) (k : StorageAddress) :
    committedLookupRun w bid ca k = (some (committedLookup w.tx bid ca k), w) := by
  rcases Bool.eq_false_or_eq_true (w.tx.block_exists bid) with hbe | hbe <;>
    rcases Bool.eq_false_or_eq_true (w.tx.contract_exists ca bid) with hce | hce <;>
      cases hsv : w.tx.storage_value bid ca k <;>
        simp [committedLookupRun, committedLookup, readBlockExists,
          readStorageValue, readContractExists, hbe, hce, hsv]

/-- The threaded run returns the pure result and the unchanged world. -/
theorem get_storage_at_run_eq (w : World) (input : GetStorageAtInput) :
    get_storage_at_run w input = (get_storage_at w.pending w.tx input, w) := by
  obtain ⟨ca, k, b⟩ := input
  cases b with
  | Pending =>
    cases hov : w.pending.state_update.storage_value ca k with
    | some v =>
      rw [get_storage_at_pending_hit w.pending w.tx ca k v hov]
      simp [get_storage_at_run, BlockId.is_pending, readPendingValue, hov]
    | none =>
      rw [get_storage_at_committed w.pending w.tx ⟨ca, k, BlockId.Pending⟩
        (fun _ => hov)]
      simp [get_storage_at_run, BlockId.is_pending, readPendingValue, hov,
        convertBlockId, resolve, committedLookupRun_spec]
  | Latest =>
    rw [get_storage_at_committed w.pending w.tx ⟨ca, k, BlockId.Latest⟩
      (fun h => nomatch h)]
    simp [get_storage_at_run, BlockId.is_pending, convertBlockId,
      BlockId.tryIntoStorage, resolve, committedLookupRun_spec]
  | Number n =>
    rw [get_storage_at_committed w.pending w.tx ⟨ca, k, BlockId.Number n⟩
      (fun h => nomatch h)]
    simp [get_storage_at_run, BlockId.is_pending, convertBlockId,
      BlockId.tryIntoStorage, resolve, committedLookupRun_spec]
  | Hash h =>
    rw [get_storage_at_committed w.pending w.tx ⟨ca, k, BlockId.Hash h⟩
      (fun hh => nomatch hh)]
    simp [get_storage_at_run, BlockId.is_pending, convertBlockId,
      BlockId.tryIntoStorage, resolve, committedLookupRun_spec]

/-! Claims. -/

/-- C1: for a Pending query, a value present in the pending overlay diff
for (contract_address, key) is returned as is; when the overlay has no
value for the pair, the query falls back to the committed lookup at
Latest. -/
theorem pending_overlay_first_then_latest (pending : PendingData)
    (tx : Transaction) (ca : ContractAddress) (k : StorageAddress) :
    (∀ v, pending.state_update.storage_value ca k = some v →
      get_storage_at pending tx ⟨ca, k, BlockId.Pending⟩ =
        some (Except.ok v)) ∧
    (pending.state_update.storage_value ca k = none →
      get_storage_at pending tx ⟨ca, k, BlockId.Pending⟩ =
        some (committedLookup tx StorageBlockId.Latest ca k)) := by
  constructor
  · intro v hv
    exact get_storage_at_pending_hit pending tx ca k v hv
  · intro h
    exact get_storage_at_committed pending tx ⟨ca, k, BlockId.Pending⟩
      (fun _ => h)

/-- C1 witness: the overlay sets contract 1, key 2 to 7 while committed
Latest stores 0 there; the Pending query returns 7. -/
theorem pending_overlay_first_then_latest_witness :
    get_storage_at pendingSeven txZero ⟨1, 2, BlockId.Pending⟩ =
      some (Except.ok 7) :=
  (pending_overlay_first_then_latest pendingSeven txZero 1 2).1 7 rfl

/-- C2: for a query resolved against committed storage (the overlay is
not hit), block-not-found is checked before contract-not-found: a block
id that does not resolve yields BlockNotFound regardless of the contract,
and ContractNotFound can only arise when the block id resolves. -/
theorem block_not_found_checked_first (pending : PendingData)
    (tx : Transaction) (input : GetStorageAtInput)
    (hmiss : input.block_id = BlockId.Pending →
      pending.state_update.storage_value input.contract_address input.key = none) :
    (tx.block_exists (resolve input.block_id) = false →
      get_storage_at pending tx input =
        some (Except.error GetStorageAtError.BlockNotFound)) ∧
    (get_storage_at pending tx input =
        some (Except.error GetStorageAtError.ContractNotFound) →
      tx.block_exists (resolve input.block_id) = true) := by
  have hc := get_storage_at_committed pending tx input hmiss
  constructor
  · intro hbe
    rw [hc]
    simp [committedLookup, hbe]
  · intro hres
    rcases Bool.eq_false_or_eq_true (tx.block_exists (resolve input.block_id))
      with hbe | hbe
    · exact hbe
    · rw [hc] at hres
      simp [committedLookup, hbe] at hres

/-- C2 witness: against storage holding no blocks, a Latest query for a
contract that exists nowhere reports BlockNotFound, not ContractNotFound. -/
theorem block_not_found_checked_first_witness :
    get_storage_at pendingEmpty txNoBlocks ⟨1, 2, BlockId.Latest⟩ =
      some (Except.error GetStorageAtError.BlockNotFound) :=
  (block_not_found_checked_first pendingEmpty txNoBlocks
    ⟨1, 2, BlockId.Latest⟩ (fun _ => rfl)).1 rfl

/-- C3: at a resolvable block where the contract exists but storage
records no value for the key, the result is the zero storage value,
not an error. -/
theorem missing_key_defaults_to_zero (pending : PendingData)
    (tx : Transaction) (input : GetStorageAtInput)
    (hmiss : input.block_id = BlockId.Pending →
      pending.state_update.storage_value input.contract_address input.key = none)
    (hbe : tx.block_exists (resolve input.block_id) = true)
    (hsv : tx.storage_value (resolve input.block_id)
      input.contract_address input.key = none)
    (hce : tx.contract_exists input.contract_address
      (resolve input.block_id) = true) :
    get_storage_at pending tx input = some (Except.ok StorageValue.ZERO) := by
  rw [get_storage_at_committed pending tx input hmiss]
  simp [committedLookup, hbe, hsv, hce]

/-- C3 witness: contract 1 exists at Latest with no stored value for key 9;
the Latest query returns zero. -/
theorem missing_key_defaults_to_zero_witness :
    get_storage_at pendingEmpty txLatestOnly ⟨1, 9, BlockId.Latest⟩ =
      some (Except.ok StorageValue.ZERO) :=
  missing_key_defaults_to_zero pendingEmpty txLatestOnly
    ⟨1, 9, BlockId.Latest⟩ (fun _ => rfl) rfl rfl rfl

/-- C4: at a resolvable block where the contract does not exist (in a
coherent snapshot, where a recorded storage value implies the contract
exists), the result is ContractNotFound; existence is judged at the
queried block, so a contract alive at Latest but absent at an earlier
block yields ContractNotFound there. -/
theorem unknown_contract_yields_not_found (pending : PendingData)
    (tx : Transaction) (input : GetStorageAtInput)
    (hmiss : input.block_id = BlockId.Pending →
      pending.state_update.storage_value input.contract_address input.key = none)
    (hbe : tx.block_exists (resolve input.block_id) = true)
    (hcoh : ∀ v, tx.storage_value (resolve input.block_id)
        input.contract_address input.key = some v →
      tx.contract_exists input.contract_address (resolve input.block_id) = true)
    (hce : tx.contract_exists input.contract_address
      (resolve input.block_id) = false) :
    get_storage_at pending tx input =
      some (Except.error GetStorageAtError.ContractNotFound) := by
  have hsv : tx.storage_value (resolve input.block_id)
      input.contract_address input.key = none := by
    cases hsv2 : tx.storage_value (resolve input.block_id)
        input.contract_address input.key with
    | none => rfl
    | some v =>
      have := hcoh v hsv2
      rw [hce] at this
      exact absurd this (by simp)
  rw [get_storage_at_committed pending tx input hmiss]
  simp [committedLookup, hbe, hsv, hce]

/-- C4 witness: contract 1 exists at Latest but not at block number 0;
the query at Number 0 reports ContractNotFound. -/
theorem unknown_contract_yields_not_found_witness :
    txLatestOnly.contract_exists 1 StorageBlockId.Latest = true ∧
    get_storage_at pendingEmpty txLatestOnly ⟨1, 2, BlockId.Number 0⟩ =
      some (Except.error GetStorageAtError.ContractNotFound) :=
  ⟨rfl,
    unknown_contract_yields_not_found pendingEmpty txLatestOnly
      ⟨1, 2, BlockId.Number 0⟩ (fun _ => rfl) rfl
      (fun _ h => Option.noConfusion h) rfl⟩

/-- C5: for any non-Pending block id the result does not depend on the
pending overlay: two runs over the same committed storage that differ
only in pending data agree. -/
theorem non_pending_ignores_overlay (p1 p2 : PendingData) (tx : Transaction)
    (input : GetStorageAtInput) (h : input.block_id ≠ BlockId.Pending) :
    get_storage_at p1 tx input = get_storage_at p2 tx input := by
  have hb : BlockId.is_pending input.block_id = false := by
    cases hb2 : input.block_id
    · exact absurd hb2 h
    · rfl
    · rfl
    · rfl
  simp [get_storage_at, hb]

/-- C5 witness: a Number 3 query gives the same answer whether the overlay
is populated or empty. -/
theorem non_pending_ignores_overlay_witness :
    get_storage_at pendingSeven txZero ⟨1, 2, BlockId.Number 3⟩ =
      get_storage_at pendingEmpty txZero ⟨1, 2, BlockId.Number 3⟩ :=
  non_pending_ignores_overlay pendingSeven pendingEmpty txZero
    ⟨1, 2, BlockId.Number 3⟩ (by decide)

/-- C6: on every input and every pair of snapshots the method produces a
typed result: the none outcome modelling the expect on the BlockId
conversion is unreachable, because Pending is mapped to Latest before
the conversion runs. -/
theorem get_storage_at_total (pending : PendingData) (tx : Transaction)
    (input : GetStorageAtInput) :
    (get_storage_at pending tx input).isSome = true := by
  obtain ⟨ca, k, b⟩ := input
  cases b with
  | Pending =>
    cases hov : pending.state_update.storage_value ca k with
    | some v =>
      rw [get_storage_at_pending_hit pending tx ca k v hov]
      rfl
    | none =>
      rw [get_storage_at_committed pending tx ⟨ca, k, BlockId.Pending⟩
        (fun _ => hov)]
      rfl
  | Latest =>
    rw [get_storage_at_committed pending tx ⟨ca, k, BlockId.Latest⟩
      (fun h => nomatch h)]
    rfl
  | Number n =>
    rw [get_storage_at_committed pending tx ⟨ca, k, BlockId.Number n⟩
      (fun h => nomatch h)]
    rfl
  | Hash h =>
    rw [get_storage_at_committed pending tx ⟨ca, k, BlockId.Hash h⟩
      (fun hh => nomatch hh)]
    rfl

/-- C7: a Pending query that hits the overlay returns that value against
any transaction snapshot — no block-existence or contract-existence
check is performed, so neither BlockNotFound nor ContractNotFound can
arise on this path, even over storage holding no blocks at all. -/
theorem pending_hit_skips_committed (pending : PendingData)
    (tx : Transaction) (ca : ContractAddress) (k : StorageAddress)
    (v : StorageValue)
    (h : pending.state_update.storage_value ca k = some v) :
    get_storage_at pending tx ⟨ca, k, BlockId.Pending⟩ =
        some (Except.ok v) ∧
    ∀ e : GetStorageAtError,
      get_storage_at pending tx ⟨ca, k, BlockId.Pending⟩ ≠
        some (Except.error e) := by
  have hv := get_storage_at_pending_hit pending tx ca k v h
  refine ⟨hv, fun e he => ?_⟩
  rw [hv] at he
  simp at he

/-- C7 witness: over storage with no blocks, the Pending query for the
overlay-set pair still returns 7. -/
theorem pending_hit_skips_committed_witness :
    get_storage_at pendingSeven txNoBlocks ⟨1, 2, BlockId.Pending⟩ =
      some (Except.ok 7) :=
  (pending_hit_skips_committed pendingSeven txNoBlocks 1 2 7 rfl).1

/-- C8: a Pending query that misses the overlay computes exactly what the
same query at Latest computes: the two code paths are extensionally
equal on such inputs. -/
theorem pending_miss_equals_latest (pending : PendingData)
    (tx : Transaction) (ca : ContractAddress) (k : StorageAddress)
    (h : pending.state_update.storage_value ca k = none) :
    get_storage_at pending tx ⟨ca, k, BlockId.Pending⟩ =
      get_storage_at pending tx ⟨ca, k, BlockId.Latest⟩ := by
  rw [get_storage_at_committed pending tx ⟨ca, k, BlockId.Pending⟩
    (fun _ => h)]
  rw [get_storage_at_committed pending tx ⟨ca, k, BlockId.Latest⟩
    (fun hh => nomatch hh)]
  rfl

/-- C8 witness: with an empty overlay, the Pending and Latest queries
coincide on the all-zero storage. -/
theorem pending_miss_equals_latest_witness :
    get_storage_at pendingEmpty txZero ⟨1, 2, BlockId.Pending⟩ =
      get_storage_at pendingEmpty txZero ⟨1, 2, BlockId.Latest⟩ :=
  pending_miss_equals_latest pendingEmpty txZero 1 2 rfl

/-- C9: the query is deterministic and read-only: the state-threaded run
leaves the world (committed storage and pending overlay) unchanged, and
its outcome coincides with the pure function of the two snapshots, so
two runs over equal snapshots produce identical results. -/
theorem get_storage_at_deterministic_readonly (w : World)
    (input : GetStorageAtInput) :
    (get_storage_at_run w input).2 = w ∧
    (get_storage_at_run w input).1 = get_storage_at w.pending w.tx input := by
  rw [get_storage_at_run_eq w input]
  exact ⟨rfl, rfl⟩

end Pathfinder
